import Mathlib

/-!
Shallow embedding of the pyjson5 codec (src/json5/lib.py): the `_Decoder.walk`
tree walk, the `_Encoder.dumps` renderer with its escaping and key rules, and
the module-level `dumps` routing between `json.dumps` and the `_Encoder`.
Python-level mechanics are made explicit: mutable-object identity is a heap
id, the encoder's `_seen_objs` set is threaded state, and the Python runtime
exceptions the code can raise (TypeError, ValueError, NameError,
UnboundLocalError) are an error type.  Floats are kept symbolic: the encoder
never successfully renders one (see `dumpsRec`), and the decoder only ever
builds floats by applying a parser to a literal, so no floating-point
arithmetic needs to be modelled.
-/

namespace PyJson5

/-- Python runtime exceptions that the code in lib.py can raise.  `fuelOut`
is an artefact of the fuel-based embedding and corresponds to no Python
behaviour; every theorem below supplies enough fuel that it never occurs. -/
inductive PyErr where
  | typeError
  | valueError
  | nameError
  | unboundLocal
  | fuelOut
deriving DecidableEq, Repr

/-- Symbolic Python float.  The encoder never inspects the payload: line 201
of lib.py raises NameError (unimported `math`) before any float is examined.
The constructors record how the value was produced. -/
inductive PyFloat where
  | finite (lit : String)
  | nan
  | inf
  | negInf
deriving DecidableEq, Repr

/-- Dictionary key as a Python value.  Keys are hashable and immutable, so
they are carried by value rather than by heap id; `kOther` stands for a key
of any type outside `_valid_key_types` (line 150), e.g. a tuple. -/
inductive PyKey where
  | kStr (s : String)
  | kInt (n : Int)
  | kFloat (f : PyFloat)
  | kBool (b : Bool)
  | kNone
  | kOther (tag : String)
deriving DecidableEq, Repr

/-- Heap object: a Python value as seen by `_Encoder.dumps`.  Containers hold
the heap ids of their children, so shared references and cycles (what
`id(obj)` observes) are representable.  `other` stands for a value of a type
the dispatch chain of lines 187-258 does not recognise. -/
inductive HObj where
  | pyNone
  | pyBool (b : Bool)
  | pyInt (n : Int)
  | pyFloat (f : PyFloat)
  | pyStr (s : String)
  | pyDict (entries : List (PyKey × Nat))
  | pyList (elems : List Nat)
  | other (tag : String)

/-- Heap: a total map from object identity to object. -/
def Heap := Nat → HObj

/-- Encoder configuration, mirroring `_Encoder.__init__` (lines 128-153) and
its defaults.  The `separators` pair is stored as the comma and colon
strings.  `hook` mirrors the `default` argument stored at line 141 as
`self.default = default or self._default`; note that the body of `dumps`
never reads it — line 259 calls `self._default`, the method that raises
`TypeError(obj)` unconditionally (lines 155-156). -/
structure Cfg where
  skipkeys : Bool := false
  ensureAscii : Bool := true
  checkCircular : Bool := true
  allowNan : Bool := true
  indent : Option Nat := none
  comma : String := ", "
  colon : String := ": "
  sortKeys : Bool := false
  hook : Option (HObj → Except PyErr HObj) := none

/-- Default configuration of `_Encoder()`. -/
def defaultCfg : Cfg := {}

/-- Rendering of Python's `'%04x' % o`: lowercase hexadecimal, zero-padded on
the left to at least four digits (wider when the codepoint needs more). -/
def hex4 (n : Nat) : String :=
  let ds := Nat.toDigits 16 n
  String.mk (List.replicate (4 - ds.length) '0' ++ ds)

/-- Character-list prefix test. -/
def chPre : List Char → List Char → Bool
  | [], _ => true
  | _ :: _, [] => false
  | a :: as, b :: bs => a = b && chPre as bs

/-- Containment of `needle` as a contiguous run inside the list. -/
def chSub (needle : List Char) : List Char → Bool
  | [] => chPre needle []
  | c :: rest => chPre needle (c :: rest) || chSub needle rest

/-- Python's substring containment `needle in hay` on strings. -/
def strHasSub (hay needle : String) : Bool :=
  chSub needle.data hay.data

/-- Python's `s.startswith(pre)`. -/
def strStarts (s pre : String) : Bool :=
  chPre pre.data s.data

/-- Membership of a single character in a string, Python's `c in s`. -/
def strHasChar (s : String) (c : Char) : Bool :=
  s.data.any (fun x => x = c)

/-- Mirrors `_Encoder._esc_char` (lines 175-184): each quote character is
escaped only when the corresponding flag is set, printable ASCII
(32 <= ord < 128) passes through, and every other character becomes a
`\uXXXX` escape. -/
def escChar (escSq escDq : Bool) (ch : Char) : String :=
  if ch = '"' && escDq then "\\\""
  else if ch = '\'' && escSq then "\\'"
  else if 32 ≤ ch.toNat && ch.toNat < 128 then String.singleton ch
  else "\\u" ++ hex4 ch.toNat

/-- Mirrors `_Encoder._esc_str` (lines 167-173): with `ensure_ascii` unset
the string passes through untouched, otherwise each character is escaped by
`escChar`. -/
def escStr (ensureAscii escSq escDq : Bool) (s : String) : String :=
  if !ensureAscii then s
  else String.join (s.data.map (escChar escSq escDq))

/-- Mirrors the string branch of `_Encoder.dumps` (lines 194-199): wrap in
single quotes unless the string contains a single quote, in which case wrap
in double quotes; the escape flag for the character opposite the wrapping
quote is switched off, the flag for the wrapping character keeps its default
of True. -/
def encStr (ensureAscii : Bool) (s : String) : String :=
  if !(strHasChar s '\'') then
    "'" ++ escStr ensureAscii true false s ++ "'"
  else
    "\"" ++ escStr ensureAscii false true s ++ "\""

/-- Word character of the key regex `\W` compiled at line 148, restricted to
ASCII (letters, digits, underscore).  Python 3's `re` module is
Unicode-aware, so its `\w` also matches non-ASCII letters; every statement
below applies the key rule only to ASCII keys, where the two notions
coincide. -/
def isWordChar (c : Char) : Bool :=
  ('a' ≤ c && c ≤ 'z') || ('A' ≤ c && c ≤ 'Z') || ('0' ≤ c && c ≤ '9') || c = '_'

/-- Mirrors `_Encoder._esc_key` (lines 158-165).  `re.search` raises
TypeError when handed a non-string argument, which is how every non-string
key fails here — including keys whose type passes the `_valid_key_types`
check of line 224. -/
def escKey (ensureAscii : Bool) (k : PyKey) : Except PyErr String :=
  match k with
  | .kStr s =>
      if s.data.any (fun c => !isWordChar c) then
        if !(strHasChar s '\'') then
          .ok ("'" ++ escStr ensureAscii true false s ++ "'")
        else
          .ok ("\"" ++ escStr ensureAscii false true s ++ "\"")
      else .ok s
  | _ => .error .typeError

/-- Mirrors the `type(k) not in self._valid_key_types` test of line 224:
str, int, float, bool and NoneType are the valid key types. -/
def validKeyType : PyKey → Bool
  | .kOther _ => false
  | _ => true

/-- Numeric view of a key for `sorted`: Python treats bool as an int. -/
def keyNum : PyKey → Option Int
  | .kInt n => some n
  | .kBool b => some (if b then 1 else 0)
  | _ => none

/-- Comparison used by `sorted(keys)` when `sort_keys` is set (line 213).
Strings compare with strings and ints/bools compare numerically; any other
mixture raises TypeError.  Finite floats are symbolic here, so a comparison
involving a float key is also mapped to TypeError — in the source such a
dict fails with the same TypeError one step later, when `_esc_key` receives
the non-string key, so the observable outcome agrees. -/
def pyKeyLt (a b : PyKey) : Except PyErr Bool :=
  match a, b with
  | .kStr x, .kStr y => .ok (decide (x < y))
  | _, _ =>
    match keyNum a, keyNum b with
    | some x, some y => .ok (decide (x < y))
    | _, _ => .error .typeError

/-- Insertion step of the `sorted` model. -/
def sortInsert (x : PyKey × Nat) : List (PyKey × Nat) → Except PyErr (List (PyKey × Nat))
  | [] => .ok [x]
  | y :: ys => do
      let lt ← pyKeyLt x.1 y.1
      if lt then .ok (x :: y :: ys)
      else do
        let r ← sortInsert x ys
        .ok (y :: r)

/-- Model of `sorted(keys)` (line 213), carrying each key's value id along;
this agrees with sorting the keys and then looking each one up, because the
keys of a dict are distinct. -/
def sortPairs : List (PyKey × Nat) → Except PyErr (List (PyKey × Nat))
  | [] => .ok []
  | x :: xs => do
      let r ← sortPairs xs
      sortInsert x r

/-- Result type of one encoder call: the produced fragment together with the
updated `_seen_objs` set. -/
def EncRes := Except PyErr (String × List Nat)

/-- Key/value loop of the dict branch (lines 223-230), threading the seen
set left to right; `enc` is the recursive `self.dumps`.  `numKeys` is
`len(keys) - 1` and `i` the enumerate index, so a skipped key still advances
`i`; in the only non-crashing path the local `indent` is the empty string,
so `self._comma + indent` is just the comma. -/
def dictLoop (cfg : Cfg) (enc : Nat → List Nat → EncRes) :
    List (PyKey × Nat) → Int → Int → List Nat → EncRes
  | [], _, _, seen => .ok ("", seen)
  | (k, vid) :: rest, numKeys, i, seen =>
      if !validKeyType k then
        if cfg.skipkeys then dictLoop cfg enc rest numKeys (i + 1) seen
        else .error .typeError
      else do
        let ek ← escKey cfg.ensureAscii k
        let (vs, seen) ← enc vid seen
        let piece := ek ++ cfg.colon ++ vs ++ (if i < numKeys then cfg.comma else "")
        let (restS, seen) ← dictLoop cfg enc rest numKeys (i + 1) seen
        .ok (piece ++ restS, seen)

/-- Element loop of the list branch (lines 250-253). -/
def listLoop (cfg : Cfg) (enc : Nat → List Nat → EncRes) :
    List Nat → Int → Int → List Nat → EncRes
  | [], _, _, seen => .ok ("", seen)
  | vid :: rest, numEls, i, seen => do
      let (vs, seen) ← enc vid seen
      let piece := vs ++ (if i < numEls then cfg.comma else "")
      let (restS, seen) ← listLoop cfg enc rest numEls (i + 1) seen
      .ok (piece ++ restS, seen)

/-- One dispatch of `_Encoder.dumps` (lines 186-259), with the recursive
call abstracted as `enc`.  `seen` is the `_seen_objs` set; ids are only ever
added (lines 209 and 240 — the source never removes an id when a container
finishes).  The float branch raises NameError: line 201 evaluates
`math.isnan`/`math.isinf` and lib.py never imports `math` (with the default
`allow_nan = True` the `and` short-circuits and it is `math.isinf` that is
reached; either way the lookup of the global `math` fails before the float
is examined).  The dict and list branches raise UnboundLocalError whenever
`indent` is set: lines 218 and 245 read the local `indent` before any
assignment to it.  The final else branch (line 259) calls `self._default`,
which raises `TypeError(obj)` unconditionally; the configured `self.default`
hook is never consulted. -/
def encodeStep (cfg : Cfg) (heap : Heap) (enc : Nat → List Nat → EncRes)
    (oid : Nat) (seen : List Nat) : EncRes :=
  match heap oid with
  | .pyBool true => .ok ("true", seen)
  | .pyBool false => .ok ("false", seen)
  | .pyNone => .ok ("null", seen)
  | .pyStr s => .ok (encStr cfg.ensureAscii s, seen)
  | .pyFloat _ => .error .nameError
  | .pyInt n => .ok (toString n, seen)
  | .pyDict entries => do
      let seen ←
        if cfg.checkCircular then
          if oid ∈ seen then .error .valueError else .ok (oid :: seen)
        else .ok seen
      let items ← if cfg.sortKeys then sortPairs entries else .ok entries
      match cfg.indent with
      | some _ => .error .unboundLocal
      | none => do
          let (body, seen) ← dictLoop cfg enc items ((items.length : Int) - 1) 0 seen
          .ok ("\x7b" ++ body ++ "\x7d", seen)
  | .pyList elems => do
      let seen ←
        if cfg.checkCircular then
          if oid ∈ seen then .error .valueError else .ok (oid :: seen)
        else .ok seen
      match cfg.indent with
      | some _ => .error .unboundLocal
      | none => do
          let (body, seen) ← listLoop cfg enc elems ((elems.length : Int) - 1) 0 seen
          .ok ("[" ++ body ++ "]", seen)
  | .other _ => .error .typeError

/-- Fuel-indexed `_Encoder.dumps`: `dumpsRec cfg heap fuel oid seen` encodes
the object at heap id `oid`.  Recursion in the source is bounded only by the
circular-reference check; the explicit fuel is an embedding artefact, and
every statement below supplies enough fuel that `.fuelOut` never occurs. -/
def dumpsRec (cfg : Cfg) (heap : Heap) (fuel : Nat) : Nat → List Nat → EncRes :=
  Nat.rec (motive := fun _ => Nat → List Nat → EncRes)
    (fun _ _ => .error .fuelOut)
    (fun _ ih => encodeStep cfg heap ih)
    fuel

/-- Which serializer the module-level `dumps` (lines 105-112) hands the
value to. -/
inductive Route where
  | jsonStrict
  | json5Relaxed
deriving DecidableEq, Repr

/-- Mirrors the routing of module-level `dumps`: `compact` is popped with
default False, `as_json` is popped with default `not compact`, and the
`as_json` branch delegates to `json.dumps` while the other branch runs
`_Encoder(**kwargs).dumps(obj)`. -/
def dumpsRoute (compact asJson : Option Bool) : Route :=
  let c := compact.getD false
  if asJson.getD (!c) then .jsonStrict else .json5Relaxed

/-- Modelled from the spec: the standard strict-format serializer
(`json.dumps`, external to this repository) renders a string value as strict
JSON text — double-quoted, with the double quote and the backslash escaped
and non-ASCII characters escaped as `\uXXXX`. -/
def jsonDumpsStr (s : String) : String :=
  "\"" ++ String.join (s.data.map (fun c =>
    if c = '"' then "\\\""
    else if c = '\\' then "\\\\"
    else if 32 ≤ c.toNat && c.toNat < 128 then String.singleton c
    else "\\u" ++ hex4 c.toNat)) ++ "\""

/-- Module-level `dumps` specialised to a single string argument, keeping
the routing of lines 107-112 intact. -/
def dumpsStrTop (compact asJson : Option Bool) (s : String) : Except PyErr String :=
  match dumpsRoute compact asJson with
  | .jsonStrict => .ok (jsonDumpsStr s)
  | .json5Relaxed => (dumpsRec defaultCfg (fun _ => .pyStr s) 1 0 []).map (fun r => r.1)

/-- Syntax-tree node handed to `_Decoder.walk` by the external parser. -/
inductive Ast where
  | null
  | btrue
  | bfalse
  | str (s : String)
  | num (lit : String)
  | obj (pairs : List (String × Ast))
  | arr (elems : List Ast)

/-- Decoded native value.  `dFloatLit lit` stands for the result of the
default float-parser (`float(lit)`) applied to the raw literal and
`dConstLit lit` for the result of the default constant-parser (line 61);
floats stay symbolic. -/
inductive DVal where
  | dNone
  | dBool (b : Bool)
  | dInt (n : Int)
  | dFloatLit (lit : String)
  | dConstLit (lit : String)
  | dStr (s : String)
  | dDict (pairs : List (String × DVal))
  | dList (elems : List DVal)

/-- Numeric value of one digit character, hexadecimal digits included. -/
def digitVal (c : Char) : Option Nat :=
  if '0' ≤ c && c ≤ '9' then some (c.toNat - 48)
  else if 'a' ≤ c && c ≤ 'f' then some (c.toNat - 87)
  else if 'A' ≤ c && c ≤ 'F' then some (c.toNat - 55)
  else none

/-- Digit-run accumulator for `readDigits`. -/
def readDigitsAux (base : Nat) : List Char → Nat → Option Nat
  | [], acc => some acc
  | c :: cs, acc =>
      match digitVal c with
      | some d => if d < base then readDigitsAux base cs (acc * base + d) else none
      | none => none

/-- Value of a nonempty digit run in the given base; `none` on an empty run
or an out-of-range digit. -/
def readDigits (base : Nat) : List Char → Option Nat
  | [] => none
  | cs => readDigitsAux base cs 0

/-- Python's `int(s)` and `int(s, 16)` restricted to the literal shapes the
JSON5 parser can emit: an optional sign, then — for base 16 — an optional
`0x`/`0X` prefix, then a nonempty digit run.  `none` models ValueError. -/
def pyInt (base : Nat) (s : String) : Option Int :=
  let p :=
    match s.data with
    | '-' :: cs => ((-1 : Int), cs)
    | '+' :: cs => ((1 : Int), cs)
    | cs => ((1 : Int), cs)
  let body :=
    if base = 16 then
      match p.2 with
      | '0' :: 'x' :: cs => cs
      | '0' :: 'X' :: cs => cs
      | cs => cs
    else p.2
  (readDigits base body).map (fun v => p.1 * v)

/-- Mapping built by the default `object_pairs_hook = dict` (line 59): a
later duplicate key overwrites the earlier value while the key keeps its
first position. -/
def setKey : List (String × DVal) → String → DVal → List (String × DVal)
  | [], k, v => [(k, v)]
  | (k', v') :: rest, k, v =>
      if k' = k then (k', v) :: rest else (k', v') :: setKey rest k v

/-- Fold of `dict(pairs)` over an ordered pair list. -/
def dedupLast (ps : List (String × DVal)) : List (String × DVal) :=
  ps.foldl (fun acc kv => setKey acc kv.1 kv.2) []

/-- Value walk of the pair list of an `object` node (line 96), with the
recursive walk abstracted as `w`. -/
def walkPairs (w : Ast → Except PyErr DVal) :
    List (String × Ast) → Except PyErr (List (String × DVal))
  | [] => .ok []
  | (k, v) :: rest => do
      let dv ← w v
      let r ← walkPairs w rest
      .ok ((k, dv) :: r)

/-- Element walk of an `array` node (line 99), with the recursive walk
abstracted as `w`. -/
def walkList (w : Ast → Except PyErr DVal) :
    List Ast → Except PyErr (List DVal)
  | [] => .ok []
  | v :: rest => do
      let dv ← w v
      let r ← walkList w rest
      .ok (dv :: r)

/-- One dispatch of `_Decoder.walk` (lines 82-101) under the default hooks
(`parse_int = int`, `parse_float = float`, the `parse_constant` of lines
61-62, and `object_pairs_hook = dict`, i.e. last-duplicate-wins mapping),
with the recursive walk abstracted as `w`.  Note that the
`'Infinity' in node_val or 'NaN' in node_val` test of line 91 is substring
containment, and that it is only reached for literals that are not
hex-prefixed and contain no `.`, `e` or `E`. -/
def walkStep (w : Ast → Except PyErr DVal) : Ast → Except PyErr DVal
  | .null => .ok .dNone
  | .btrue => .ok (.dBool true)
  | .bfalse => .ok (.dBool false)
  | .str s => .ok (.dStr s)
  | .num lit =>
      if strStarts lit "0x" || strStarts lit "0X" then
        match pyInt 16 lit with
        | some n => .ok (.dInt n)
        | none => .error .valueError
      else if strHasChar lit '.' || strHasChar lit 'e' || strHasChar lit 'E' then
        .ok (.dFloatLit lit)
      else if strHasSub lit "Infinity" || strHasSub lit "NaN" then
        .ok (.dConstLit lit)
      else
        match pyInt 10 lit with
        | some n => .ok (.dInt n)
        | none => .error .valueError
  | .obj pairs => do
      let ps ← walkPairs w pairs
      .ok (.dDict (dedupLast ps))
  | .arr elems => do
      let es ← walkList w elems
      .ok (.dList es)

/-- Fuel-indexed `_Decoder.walk`.  Recursion depth in the source is the
depth of the syntax tree; the fuel is an embedding artefact and every
statement below supplies enough of it that `.fuelOut` never occurs. -/
def walk (fuel : Nat) : Ast → Except PyErr DVal :=
  Nat.rec (motive := fun _ => Ast → Except PyErr DVal)
    (fun _ => .error .fuelOut)
    (fun _ ih => walkStep ih)
    fuel


/-- Unfolding of one fuel step of the encoder. -/
theorem dumpsRec_succ (cfg : Cfg) (heap : Heap) (fuel : Nat) :
    dumpsRec cfg heap (fuel + 1) = encodeStep cfg heap (dumpsRec cfg heap fuel) := rfl

/-- Unfolding of one fuel step of the decoder walk. -/
theorem walk_succ (fuel : Nat) : walk (fuel + 1) = walkStep (walk fuel) := rfl

/-- Per-character string rendering as claim C6 states it: no quote character
is ever escaped, and every character outside codepoints 32-127 becomes a
`\uXXXX` escape. -/
def escCharClaim (c : Char) : String :=
  if 32 ≤ c.toNat && c.toNat < 128 then String.singleton c
  else "\\u" ++ hex4 c.toNat

/-- String rendering exactly as claim C6 states it: single-quote wrapping
when the string has no single quote, double-quote wrapping otherwise, and no
quote character escaped in either branch. -/
def encStrClaim (s : String) : String :=
  if !(strHasChar s '\'') then
    "'" ++ String.join (s.data.map escCharClaim) ++ "'"
  else
    "\"" ++ String.join (s.data.map escCharClaim) ++ "\""

/-- Per-character rendering of the double-quote branch as amended: an
embedded double quote — the wrapping character — is escaped, and otherwise
only characters outside 32-127 are. -/
def escCharDqAmended (c : Char) : String :=
  if c = '"' then "\\\""
  else if 32 ≤ c.toNat && c.toNat < 128 then String.singleton c
  else "\\u" ++ hex4 c.toNat

/-- String rendering as claim C6 has to be amended: in the single-quote
branch no quote character is escaped, while in the double-quote branch the
embedded double quotes are backslash-escaped (the embedded single quotes are
not). -/
def encStrAmended (s : String) : String :=
  if !(strHasChar s '\'') then
    "'" ++ String.join (s.data.map escCharClaim) ++ "'"
  else
    "\"" ++ String.join (s.data.map escCharDqAmended) ++ "\""

/-- Character-level agreement of the source's single-quote branch with the
claim's rendering, for characters that are not single quotes. -/
theorem escChar_sq_eq_claim (c : Char) (h : ¬ c = '\'') :
    escChar true false c = escCharClaim c := by
  simp [escChar, escCharClaim, h]

/-- Character-level agreement of the source's double-quote branch with the
amended rendering, for every character. -/
theorem escChar_dq_eq_amended (c : Char) :
    escChar false true c = escCharDqAmended c := by
  by_cases hc : c = '"' <;> simp [escChar, escCharDqAmended, hc]

/-- Claim C1 (round trip).  The claim fails on the code: for the finite
float 0.5 — a value the claim covers — `_Encoder.dumps` raises NameError,
because line 201 uses `math.isnan`/`math.isinf` and lib.py never imports
`math`.  Encoding produces no text, so `decode(encode(0.5))` cannot equal
0.5; the code, not the claim, is wrong (the missing import is a plain
slip). -/
theorem c1_roundtrip_float_encode_fails :
    dumpsRec defaultCfg (fun _ => .pyFloat (.finite "0.5")) 9 0 [] =
      .error .nameError := rfl

/-- Claim C2 (circular references).  First conjunct: a list that contains
itself is rejected with ValueError (the CircularReferenceError) after
finitely many steps — this half of the claim holds.  Second conjunct: an
acyclic value in which the same list object (heap id 1) appears in two
sibling positions is also rejected, because lines 209/240 add the id to
`_seen_objs` and nothing ever removes it; the claim (and spec note 9's
corrected stack discipline) requires this value to encode successfully. -/
theorem c2_cycle_detected_but_sibling_reuse_rejected :
    dumpsRec defaultCfg (fun _ => .pyList [0]) 9 0 [] = .error .valueError ∧
    dumpsRec defaultCfg
      (fun n => match n with
        | 0 => .pyList [1, 1]
        | 1 => .pyList [2]
        | _ => .pyInt 1) 9 0 [] = .error .valueError :=
  ⟨rfl, rfl⟩

/-- Claim C3 (non-finite floats).  Every float — NaN, infinite or finite,
under every configuration and in particular regardless of `allow_nan` —
makes `_Encoder.dumps` raise NameError at line 201, since `math` is never
imported.  No NonFiniteNumberError is ever raised, no `NaN`/`Infinity`
token and no decimal representation is ever produced. -/
theorem c3_every_float_raises_nameerror (cfg : Cfg) (f : PyFloat)
    (fuel : Nat) (seen : List Nat) :
    dumpsRec cfg (fun _ => .pyFloat f) (fuel + 1) 0 seen =
      .error .nameError := rfl

/-- Claim C5 (default hook).  The else branch of `dumps` (line 259) calls
`self._default`, the method that raises `TypeError(obj)` unconditionally —
not the configured `self.default` hook stored at line 141.  Hence for a
value of unrecognised type the result is a TypeError for every configured
hook, including one that would return a substitute: the hook is never
invoked and no substitute is encoded. -/
theorem c5_default_hook_never_invoked (cfg : Cfg)
    (h : Option (HObj → Except PyErr HObj)) (tag : String)
    (fuel : Nat) (seen : List Nat) :
    dumpsRec { cfg with hook := h } (fun _ => .other tag) (fuel + 1) 0 seen =
      .error .typeError := rfl

/-- Claim C10 (bool/int dispatch).  The identity tests of lines 188-191 come
before the `t is int` test of line 203, so True and False encode to the
tokens `true` and `false` while the integers 1 and 0 encode to the decimal
strings `1` and `0`. -/
theorem c10_bool_before_int_dispatch :
    dumpsRec defaultCfg (fun _ => .pyBool true) 1 0 [] = .ok ("true", []) ∧
    dumpsRec defaultCfg (fun _ => .pyBool false) 1 0 [] = .ok ("false", []) ∧
    dumpsRec defaultCfg (fun _ => .pyInt 1) 1 0 [] = .ok ("1", []) ∧
    dumpsRec defaultCfg (fun _ => .pyInt 0) 1 0 [] = .ok ("0", []) :=
  ⟨rfl, rfl, rfl, rfl⟩

/-- Claim C9 (indentation).  With `indent` set to the non-negative width 2,
encoding a dict or a list raises UnboundLocalError: lines 218 and 245 read
the local `indent` before assigning it (and reference the nonexistent
attribute `self.indent_level`).  No newline or spaces are ever inserted.
The third conjunct shows the `indent is None` half of the claim, which
holds: output is compact, with no inserted whitespace beyond the
separators. -/
theorem c9_indent_raises_unbound_local :
    dumpsRec { defaultCfg with indent := some 2 }
      (fun n => match n with
        | 0 => .pyDict [(.kStr "a", 1)]
        | _ => .pyInt 1) 9 0 [] = .error .unboundLocal ∧
    dumpsRec { defaultCfg with indent := some 2 }
      (fun n => match n with
        | 0 => .pyList [1]
        | _ => .pyInt 7) 9 0 [] = .error .unboundLocal ∧
    dumpsRec defaultCfg
      (fun n => match n with
        | 0 => .pyDict [(.kStr "a", 1), (.kStr "b", 2)]
        | 1 => .pyInt 1
        | _ => .pyInt 2) 9 0 [] = .ok ("\x7ba: 1, b: 2\x7d", [0]) :=
  ⟨rfl, rfl, rfl⟩

/-- Claim C7 (mapping keys).  String keys behave as claimed: `valid_id1`
renders bare, `has space` renders quoted; a key of invalid type raises
TypeError (the UnsupportedKeyTypeError) when `skipkeys` is off and is
dropped, with encoding continuing, when it is on.  But the claim's first
half fails for the other permitted key types: the int key 26 and the bool
key True pass the `_valid_key_types` test of line 224 and then crash with
TypeError inside `_esc_key`, because `re.search` (line 159) only accepts
strings — they are never rendered. -/
theorem c7_nonstring_valid_keys_crash :
    dumpsRec defaultCfg
      (fun n => match n with
        | 0 => .pyDict [(.kStr "valid_id1", 1)]
        | _ => .pyInt 1) 9 0 [] = .ok ("\x7bvalid_id1: 1\x7d", [0]) ∧
    dumpsRec defaultCfg
      (fun n => match n with
        | 0 => .pyDict [(.kStr "has space", 1)]
        | _ => .pyInt 1) 9 0 [] = .ok ("\x7b'has space': 1\x7d", [0]) ∧
    dumpsRec defaultCfg
      (fun n => match n with
        | 0 => .pyDict [(.kOther "tuple", 1)]
        | _ => .pyInt 1) 9 0 [] = .error .typeError ∧
    dumpsRec { defaultCfg with skipkeys := true }
      (fun n => match n with
        | 0 => .pyDict [(.kOther "tuple", 1), (.kStr "a", 2)]
        | _ => .pyInt 1) 9 0 [] = .ok ("\x7ba: 1\x7d", [0]) ∧
    dumpsRec defaultCfg
      (fun n => match n with
        | 0 => .pyDict [(.kInt 26, 1)]
        | _ => .pyInt 1) 9 0 [] = .error .typeError ∧
    dumpsRec defaultCfg
      (fun n => match n with
        | 0 => .pyDict [(.kBool true, 1)]
        | _ => .pyInt 1) 9 0 [] = .error .typeError :=
  ⟨rfl, rfl, rfl, rfl, rfl, rfl⟩

/-- Claim C4, counterexample.  Selecting compact mode routes to the relaxed
`_Encoder`, not to the strict serializer: `dumps('a', compact=True)` yields
the single-quoted relaxed text `'a'`, which differs from the double-quoted
strict output of `json.dumps` — the claim's "bypasses the relaxed Encoder
and delegates to a strict serializer" is false at this input. -/
theorem c4_compact_counterexample :
    dumpsRoute (some true) none = .json5Relaxed ∧
    dumpsStrTop (some true) none "a" = .ok "'a'" ∧
    jsonDumpsStr "a" = "\"a\"" ∧
    ("'a'" : String) ≠ "\"a\"" :=
  ⟨rfl, rfl, rfl, by decide⟩

/-- Claim C4 as amended: the `compact` convenience flag selects the relaxed
`_Encoder`; it is the default non-compact mode (`as_json`, which defaults to
`not compact`) that bypasses the relaxed writer and delegates to the
standard strict serializer `json.dumps`.  An explicit `as_json` argument
decides the route directly. -/
theorem c4_compact_routing_amended :
    dumpsRoute (some true) none = .json5Relaxed ∧
    dumpsRoute none none = .jsonStrict ∧
    (∀ c aj, dumpsRoute c (some aj) =
      if aj then Route.jsonStrict else Route.json5Relaxed) ∧
    dumpsStrTop none none "a" = .ok (jsonDumpsStr "a") :=
  ⟨rfl, rfl, fun c aj => by cases aj <;> rfl, rfl⟩

/-- Claim C6, counterexample.  For the two-character string consisting of a
single quote followed by a double quote, the encoder wraps in double quotes
and escapes the embedded double quote — the wrapping character — as `\"`,
so the claim's "the wrapping quote character is never escaped in the
output" is false at this input. -/
theorem c6_both_quotes_counterexample :
    encStr true (String.mk ['\'', '"']) =
      String.mk ['"', '\'', '\\', '"', '"'] ∧
    encStr true (String.mk ['\'', '"']) ≠ encStrClaim (String.mk ['\'', '"']) :=
  ⟨rfl, by decide⟩

/-- Claim C6 as amended: a string with no single quote is wrapped in single
quotes with no quote character escaped; a string containing a single quote
is wrapped in double quotes, embedded single quotes stay unescaped, and
embedded double quotes — the wrapping character — are backslash-escaped; in
both branches, with ascii-only enabled, every character outside codepoints
32-127 is emitted as a `\uXXXX` escape (lowercase hexadecimal, zero-padded
to at least four digits). -/
theorem c6_quote_selection_amended (s : String) (fuel : Nat) (seen : List Nat) :
    dumpsRec defaultCfg (fun _ => .pyStr s) (fuel + 1) 0 seen =
      .ok (encStrAmended s, seen) := by
  have h1 : dumpsRec defaultCfg (fun _ => .pyStr s) (fuel + 1) 0 seen
      = .ok (encStr true s, seen) := rfl
  have h2 : encStr true s = encStrAmended s := by
    unfold encStr encStrAmended escStr
    cases hsq : strHasChar s '\'' with
    | false =>
        have hmem : ∀ c ∈ s.data, ¬ c = '\'' := by
          simpa [strHasChar, List.any_eq_false] using hsq
        have hmap : s.data.map (escChar true false) = s.data.map escCharClaim :=
          List.map_congr_left (fun c hc => escChar_sq_eq_claim c (hmem c hc))
        simp [hsq, hmap]
    | true =>
        have hmap : s.data.map (escChar false true) = s.data.map escCharDqAmended :=
          List.map_congr_left (fun c _ => escChar_dq_eq_amended c)
        simp [hsq, hmap]
  rw [h1, h2]

/-- Claim C8 (numeric classification of the decoder).  A hex-prefixed
literal is always decoded as a base-16 integer (in particular `0x1A` and
`0X1a` decode to 26); a non-hex literal containing `.`, `e` or `E` decodes
to a float via the float-parser; each special constant token decodes via the
constant-parser; and a literal with none of these marks decodes as a
base-10 integer.  Integer-parse failure is ValueError, as in `int()`. -/
theorem c8_number_classification (fuel : Nat) (lit : String) :
    (strStarts lit "0x" = true ∨ strStarts lit "0X" = true →
      walk (fuel + 1) (.num lit) =
        (pyInt 16 lit).elim (.error .valueError) (fun n => .ok (.dInt n))) ∧
    (strStarts lit "0x" = false → strStarts lit "0X" = false →
      (strHasChar lit '.' = true ∨ strHasChar lit 'e' = true ∨
        strHasChar lit 'E' = true) →
      walk (fuel + 1) (.num lit) = .ok (.dFloatLit lit)) ∧
    (lit = "Infinity" ∨ lit = "-Infinity" ∨ lit = "+Infinity" ∨
        lit = "NaN" ∨ lit = "-NaN" ∨ lit = "+NaN" →
      walk (fuel + 1) (.num lit) = .ok (.dConstLit lit)) ∧
    (strStarts lit "0x" = false → strStarts lit "0X" = false →
      strHasChar lit '.' = false → strHasChar lit 'e' = false →
      strHasChar lit 'E' = false → strHasSub lit "Infinity" = false →
      strHasSub lit "NaN" = false →
      walk (fuel + 1) (.num lit) =
        (pyInt 10 lit).elim (.error .valueError) (fun n => .ok (.dInt n))) ∧
    walk (fuel + 1) (.num "0x1A") = .ok (.dInt 26) ∧
    walk (fuel + 1) (.num "0X1a") = .ok (.dInt 26) := by
  refine ⟨?_, ?_, ?_, ?_, rfl, rfl⟩
  · rintro (h | h) <;>
      · simp only [walk_succ, walkStep, h, Bool.true_or, Bool.or_true, if_true]
        cases pyInt 16 lit <;> rfl
  · intro h0 h1 hd
    rcases hd with h | h | h <;>
      simp [walk_succ, walkStep, h0, h1, h]
  · rintro (h | h | h | h | h | h) <;> subst h <;> rfl
  · intro h0 h1 hd he hE hInf hNaN
    simp only [walk_succ, walkStep, h0, h1, hd, he, hE, hInf, hNaN,
      Bool.or_self, Bool.false_or, if_false]
    cases pyInt 10 lit <;> rfl

/-- Witness for C8 at concrete literals: `3.5` routes through the
float-parser and `0x1A` decodes to the integer 26. -/
theorem c8_number_classification_witness :
    walk 1 (.num "3.5") = .ok (.dFloatLit "3.5") ∧
    walk 1 (.num "0x1A") = .ok (.dInt 26) :=
  ⟨(c8_number_classification 0 "3.5").2.1 rfl rfl (Or.inl rfl),
   (c8_number_classification 0 "0x1A").2.2.2.2.1⟩

end PyJson5
